import Mathlib

/-!
Verification of the bonding-curve token launcher
(`programs/token-launcher/src/lib.rs`, Anchor program `token_launcher`).

The program state `LauncherState` and the four instruction handlers are
shallowly embedded as pure Lean functions over `Nat` with explicit `u64`
domain checks (`< 2 ^ 64`).  External effects (system transfer, SPL
mint/burn, raw lamport moves) are represented by explicit balance
arguments and results: each operation takes the caller's lamport/token
balances and the `sol_vault` lamport balance and returns the updated
ones together with the updated `LauncherState`.  A failing operation
returns an error and no updated balances, which models Solana's
all-or-nothing transaction semantics (any returned error or panic
aborts the whole transaction with no state change).
-/

namespace TokenLauncher

/-- The `u64` domain bound: a value is representable iff it is `< U64MOD`. -/
def U64MOD : Nat := 2 ^ 64

theorem U64MOD_eq : U64MOD = 18446744073709551616 := by norm_num [U64MOD]

theorem U64MOD_pos : 0 < U64MOD := by norm_num [U64MOD]

/-- The on-chain account `LauncherState` (lib.rs 356-369).  `Pubkey`s are
modelled as `Nat` identifiers; the `bump`/`vault_bump` seed bytes are address
derivation artifacts with no effect on the accounting logic and are omitted. -/
structure LauncherState where
  authority : Nat
  mint : Nat
  token_name : String
  token_symbol : String
  token_decimals : Nat
  current_price : Nat
  max_supply : Nat
  total_minted : Nat
  sol_collected : Nat
  deriving Repr, DecidableEq

/-- The program's error enum `ErrorCode` (lib.rs 400-410). -/
inductive ErrorCode where
  | MathOverflow
  | MaxSupplyExceeded
  | InsufficientSolBalance
  | Unauthorized
  deriving Repr, DecidableEq

/-- Outcome taxonomy of one instruction:
`program e` is a typed error returned by the program (`ErrorCode`);
`abort` is a runtime abort (an arithmetic panic from an UNCHECKED `*`, `/`,
`+` or `-`: overflow, underflow or division by zero);
`external` is a failure reported by an external collaborator CPI
(system-program transfer or SPL mint/burn).

Modelled from the spec: the crate's build profile is not under `src/`; the
spec states "All arithmetic is exact-integer and overflow-checked; no
operation may silently wrap", which matches the standard Anchor workspace
profile `overflow-checks = true`.  Under it an unchecked arithmetic overflow
panics (aborting the transaction) rather than wrapping. -/
inductive TxError where
  | program (e : ErrorCode)
  | abort
  | external
  deriving Repr, DecidableEq

/-- Decidable equality of instruction outcomes, used to evaluate the
operations on concrete inputs inside proofs. -/
instance {ε α : Type} [DecidableEq ε] [DecidableEq α] : DecidableEq (Except ε α)
  | .error a, .error b => decidable_of_iff (a = b) (by simp)
  | .error _, .ok _ => isFalse (fun h => Except.noConfusion h)
  | .ok _, .error _ => isFalse (fun h => Except.noConfusion h)
  | .ok a, .ok b => decidable_of_iff (a = b) (by simp)

/-- `initialize_token_launcher` (lib.rs 13-43): writes the fields and performs
NO validation of any argument (in particular none of `max_supply`).
Account-creation failures (e.g. the launcher PDA already existing) belong to
the external account layer, not to this handler's logic. -/
def init_token_launcher (authority mint : Nat) (token_name token_symbol : String)
    (token_decimals initial_price max_supply : Nat) : LauncherState :=
  { authority := authority
    mint := mint
    token_name := token_name
    token_symbol := token_symbol
    token_decimals := token_decimals
    current_price := initial_price
    max_supply := max_supply
    total_minted := 0
    sol_collected := 0 }

/-- `LauncherState::update_price` (lib.rs 386-397):
`supply_ratio = (total_minted * 100) / max_supply`,
`current_price = (1_000_000 * (100 + supply_ratio)) / 100`.
All four arithmetic steps use UNCHECKED `u64` operators in the source, so an
overflowing multiplication/addition or a division by `max_supply = 0` aborts
(`TxError.abort`) instead of returning a typed error (see `TxError`). -/
def update_price (s : LauncherState) : Except TxError LauncherState :=
  if s.total_minted * 100 < U64MOD then
    if s.max_supply = 0 then .error .abort
    else
      if 100 + s.total_minted * 100 / s.max_supply < U64MOD then
        if 1000000 * (100 + s.total_minted * 100 / s.max_supply) < U64MOD then
          .ok { s with
            current_price :=
              1000000 * (100 + s.total_minted * 100 / s.max_supply) / 100 }
        else .error .abort
      else .error .abort
  else .error .abort

/-- `buy_tokens` (lib.rs 47-125).  Arguments beyond the state: the buyer's
lamport balance, the buyer's token-account balance, the vault's lamport
balance, and the instruction argument `sol_amount`.  Result on success:
`(new state, buyer lamports, buyer tokens, vault lamports)`.

Steps, in source order:
`token_amount = checked_div(sol_amount, current_price)` (`MathOverflow` iff
price is 0) `* 10_u64.pow(token_decimals)` (the `pow` itself is unchecked and
aborts when `10 ^ decimals` overflows `u64`; the multiplication is
`checked_mul`, `MathOverflow` on overflow); the supply-cap `require!` with a
`checked_add` (lib.rs 66-73); the system transfer buyer -> vault (fails in
the system program if the buyer lacks funds or the vault balance would
overflow); `mint_to` of `token_amount` to the buyer (fails in SPL if the
buyer's token balance would overflow; the mint-supply overflow check is
subsumed by the `checked_add` above, since the mint supply equals
`total_minted`); the state updates with `checked_add` (the `total_minted`
addition is the sum already checked at lib.rs 68-70, re-checked verbatim at
lib.rs 107-109, so it is encoded once); finally `update_price`. -/
def buy_tokens (s : LauncherState) (buyer_sol buyer_tokens vault sol_amount : Nat) :
    Except TxError (LauncherState × Nat × Nat × Nat) :=
  if s.current_price = 0 then .error (.program .MathOverflow)
  else
    if 10 ^ s.token_decimals < U64MOD then
      if sol_amount / s.current_price * 10 ^ s.token_decimals < U64MOD then
        if s.total_minted + sol_amount / s.current_price * 10 ^ s.token_decimals < U64MOD then
          if s.total_minted + sol_amount / s.current_price * 10 ^ s.token_decimals ≤ s.max_supply then
            if sol_amount ≤ buyer_sol then
              if vault + sol_amount < U64MOD then
                if buyer_tokens + sol_amount / s.current_price * 10 ^ s.token_decimals < U64MOD then
                  if s.sol_collected + sol_amount < U64MOD then
                    Except.map
                      (fun s2 =>
                        (s2, buyer_sol - sol_amount,
                         buyer_tokens + sol_amount / s.current_price * 10 ^ s.token_decimals,
                         vault + sol_amount))
                      (update_price { s with
                        total_minted :=
                          s.total_minted + sol_amount / s.current_price * 10 ^ s.token_decimals,
                        sol_collected := s.sol_collected + sol_amount })
                  else .error (.program .MathOverflow)
                else .error .external
              else .error .external
            else .error .external
          else .error (.program .MaxSupplyExceeded)
        else .error (.program .MathOverflow)
      else .error (.program .MathOverflow)
    else .error .abort

/-- `sell_tokens` (lib.rs 128-192).  Arguments beyond the state: the seller's
lamport balance, the seller's token-account balance, the vault's lamport
balance, and the instruction argument `token_amount`.  Result on success:
`(new state, seller lamports, seller tokens, vault lamports)`.

Steps, in source order:
`sol_amount = checked_div(token_amount, 10_u64.pow(decimals))` (the unchecked
`pow` aborts when `10 ^ decimals` overflows `u64`; the divisor `10 ^ decimals`
is never 0, so the `checked_div` itself never fails)
`.checked_mul(current_price).checked_mul(90).checked_div(100)`
(`MathOverflow` on multiplication overflow; the division by the constant 100
never fails); the vault-balance `require!` (lib.rs 146-149,
`InsufficientSolBalance`); the `burn` CPI of `token_amount` from the seller
(fails in SPL if the seller holds fewer tokens); the raw lamport moves
(lib.rs 170-171): the vault decrement is guarded by the earlier `require!`,
the seller increment is an UNCHECKED `+=` that aborts on `u64` overflow; the
state updates with `checked_sub` (`MathOverflow` on underflow, lib.rs
173-179); finally `update_price`. -/
def sell_tokens (s : LauncherState) (seller_sol seller_tokens vault token_amount : Nat) :
    Except TxError (LauncherState × Nat × Nat × Nat) :=
  if 10 ^ s.token_decimals < U64MOD then
    if token_amount / 10 ^ s.token_decimals * s.current_price < U64MOD then
      if token_amount / 10 ^ s.token_decimals * s.current_price * 90 < U64MOD then
        if token_amount / 10 ^ s.token_decimals * s.current_price * 90 / 100 ≤ vault then
          if token_amount ≤ seller_tokens then
            if seller_sol + token_amount / 10 ^ s.token_decimals * s.current_price * 90 / 100 < U64MOD then
              if token_amount ≤ s.total_minted then
                if token_amount / 10 ^ s.token_decimals * s.current_price * 90 / 100 ≤ s.sol_collected then
                  Except.map
                    (fun s2 =>
                      (s2,
                       seller_sol + token_amount / 10 ^ s.token_decimals * s.current_price * 90 / 100,
                       seller_tokens - token_amount,
                       vault - token_amount / 10 ^ s.token_decimals * s.current_price * 90 / 100))
                    (update_price { s with
                      total_minted := s.total_minted - token_amount,
                      sol_collected :=
                        s.sol_collected
                          - token_amount / 10 ^ s.token_decimals * s.current_price * 90 / 100 })
                  else .error (.program .MathOverflow)
              else .error (.program .MathOverflow)
            else .error .abort
          else .error .external
        else .error (.program .InsufficientSolBalance)
      else .error (.program .MathOverflow)
    else .error (.program .MathOverflow)
  else .error .abort

/-- `withdraw_sol` (lib.rs 195-217).  Arguments beyond the state: the
requesting identity, its lamport balance, the vault's lamport balance, and
the instruction argument `amount`.  Result on success:
`(unchanged state, requester lamports, vault lamports)`.

The `require!` compares the requester to the stored `authority`
(`Unauthorized`).  Both lamport moves (lib.rs 211-212) are UNCHECKED `-=` /
`+=`: withdrawing more than the vault holds, or overflowing the requester's
balance, aborts — the program performs no typed balance check here. -/
def withdraw_sol (s : LauncherState) (requester requester_sol vault amount : Nat) :
    Except TxError (LauncherState × Nat × Nat) :=
  if requester = s.authority then
    if amount ≤ vault then
      if requester_sol + amount < U64MOD then
        .ok (s, requester_sol + amount, vault - amount)
      else .error .abort
    else .error .abort
  else .error (.program .Unauthorized)

/-- States reachable from `initialize_token_launcher` by successful
operations, together with the vault's lamport balance.  The initializer's
arguments range over the full `u64` (and `u8` for the decimals) domains; the
vault starts at an arbitrary balance `v0` (its rent-exemption deposit).
Caller balances (`bs`, `bt`, ...) are external accounts and range freely. -/
inductive Reachable : LauncherState → Nat → Prop where
  | init (authority mint : Nat) (tn ts : String) (d p m v0 : Nat)
      (hd : d < 256) (hp : p < U64MOD) (hm : m < U64MOD) :
      Reachable (init_token_launcher authority mint tn ts d p m) v0
  | buy {s : LauncherState} {v : Nat} (bs bt x : Nat)
      {s' : LauncherState} {bs' bt' v' : Nat}
      (hr : Reachable s v) (hx : x < U64MOD)
      (hok : buy_tokens s bs bt v x = .ok (s', bs', bt', v')) :
      Reachable s' v'
  | sell {s : LauncherState} {v : Nat} (ss st x : Nat)
      {s' : LauncherState} {ss' st' v' : Nat}
      (hr : Reachable s v) (hx : x < U64MOD)
      (hok : sell_tokens s ss st v x = .ok (s', ss', st', v')) :
      Reachable s' v'
  | withdraw {s : LauncherState} {v : Nat} (k ks x : Nat)
      {s' : LauncherState} {ks' v' : Nat}
      (hr : Reachable s v) (hx : x < U64MOD)
      (hok : withdraw_sol s k ks v x = .ok (s', ks', v')) :
      Reachable s' v'

/-! ### Helper lemmas: what a successful operation implies -/

/-- A successful `update_price` implies its unchecked arithmetic stayed in the
`u64` domain and pins the resulting state: only `current_price` changes, to
the bonding-curve value. -/
theorem update_price_ok {s s' : LauncherState} (h : update_price s = .ok s') :
    s.max_supply ≠ 0 ∧ s.total_minted * 100 < U64MOD ∧
    s' = { s with
      current_price := 1000000 * (100 + s.total_minted * 100 / s.max_supply) / 100 } := by
  unfold update_price at h
  split_ifs at h with h1 h2 h3 h4
  all_goals first
    | exact Except.noConfusion h
    | exact ⟨h2, h1, by injection h with h5; exact h5.symm⟩

/-- `update_price` succeeds whenever the multiplication fits, the divisor is
nonzero and the supply invariant `total_minted ≤ max_supply` holds (which
bounds the multiplier by 200). -/
theorem update_price_run {s : LauncherState} (h1 : s.total_minted * 100 < U64MOD)
    (h2 : s.max_supply ≠ 0) (h3 : s.total_minted ≤ s.max_supply) :
    update_price s = .ok { s with
      current_price := 1000000 * (100 + s.total_minted * 100 / s.max_supply) / 100 } := by
  have hm0 : 0 < s.max_supply := Nat.pos_of_ne_zero h2
  have hr100 : s.total_minted * 100 / s.max_supply ≤ 100 := by
    calc s.total_minted * 100 / s.max_supply
        ≤ s.max_supply * 100 / s.max_supply :=
          Nat.div_le_div_right (Nat.mul_le_mul_right _ h3)
      _ = 100 := by rw [Nat.mul_comm, Nat.mul_div_cancel _ hm0]
  have hA : 100 + s.total_minted * 100 / s.max_supply < U64MOD := by
    rw [U64MOD_eq]; omega
  have hB : 1000000 * (100 + s.total_minted * 100 / s.max_supply) < U64MOD := by
    have : 1000000 * (100 + s.total_minted * 100 / s.max_supply) ≤ 1000000 * 200 :=
      Nat.mul_le_mul_left _ (by omega)
    rw [U64MOD_eq]; omega
  unfold update_price
  rw [if_pos h1, if_neg h2, if_pos hA, if_pos hB]

/-- A successful `buy_tokens` implies every checked step passed, and pins the
resulting state and balances.  The minted quantity is
`sol_amount / current_price * 10 ^ token_decimals`. -/
theorem buy_tokens_ok {s : LauncherState} {bs bt v x : Nat}
    {s' : LauncherState} {bs' bt' v' : Nat}
    (h : buy_tokens s bs bt v x = .ok (s', bs', bt', v')) :
    s.current_price ≠ 0 ∧
    10 ^ s.token_decimals < U64MOD ∧
    x / s.current_price * 10 ^ s.token_decimals < U64MOD ∧
    s.total_minted + x / s.current_price * 10 ^ s.token_decimals ≤ s.max_supply ∧
    x ≤ bs ∧
    s.sol_collected + x < U64MOD ∧
    (s.total_minted + x / s.current_price * 10 ^ s.token_decimals) * 100 < U64MOD ∧
    s.max_supply ≠ 0 ∧
    s' = { s with
      total_minted := s.total_minted + x / s.current_price * 10 ^ s.token_decimals,
      sol_collected := s.sol_collected + x,
      current_price :=
        1000000 * (100 +
          (s.total_minted + x / s.current_price * 10 ^ s.token_decimals) * 100
            / s.max_supply) / 100 } ∧
    bs' = bs - x ∧
    bt' = bt + x / s.current_price * 10 ^ s.token_decimals ∧
    v' = v + x := by
  unfold buy_tokens at h
  split_ifs at h with h1 h2 h3 h4 h5 h6 h7 h8 h9
  cases hup : update_price { s with
      total_minted := s.total_minted + x / s.current_price * 10 ^ s.token_decimals,
      sol_collected := s.sol_collected + x } with
  | error e =>
      rw [hup] at h
      exact Except.noConfusion h
  | ok s2 =>
      rw [hup] at h
      obtain ⟨hm0, hlt, hs2⟩ := update_price_ok hup
      simp only [Except.map, Except.ok.injEq, Prod.mk.injEq] at h
      obtain ⟨ha, hb, hc, hdq⟩ := h
      refine ⟨h1, h2, h3, h5, h6, h9, ?_, ?_, ?_, hb.symm, hc.symm, hdq.symm⟩
      · simpa using hlt
      · simpa using hm0
      · rw [← ha, hs2]

/-- A successful `sell_tokens` implies every checked step passed, and pins the
resulting state and balances.  The payout is
`token_amount / 10 ^ token_decimals * current_price * 90 / 100`, computed at
the pre-operation price. -/
theorem sell_tokens_ok {s : LauncherState} {ss st v x : Nat}
    {s' : LauncherState} {ss' st' v' : Nat}
    (h : sell_tokens s ss st v x = .ok (s', ss', st', v')) :
    10 ^ s.token_decimals < U64MOD ∧
    x / 10 ^ s.token_decimals * s.current_price * 90 / 100 ≤ v ∧
    x ≤ st ∧
    x ≤ s.total_minted ∧
    x / 10 ^ s.token_decimals * s.current_price * 90 / 100 ≤ s.sol_collected ∧
    (s.total_minted - x) * 100 < U64MOD ∧
    s.max_supply ≠ 0 ∧
    s' = { s with
      total_minted := s.total_minted - x,
      sol_collected :=
        s.sol_collected - x / 10 ^ s.token_decimals * s.current_price * 90 / 100,
      current_price :=
        1000000 * (100 + (s.total_minted - x) * 100 / s.max_supply) / 100 } ∧
    ss' = ss + x / 10 ^ s.token_decimals * s.current_price * 90 / 100 ∧
    st' = st - x ∧
    v' = v - x / 10 ^ s.token_decimals * s.current_price * 90 / 100 := by
  unfold sell_tokens at h
  split_ifs at h with h1 h2 h3 h4 h5 h6 h7 h8
  cases hup : update_price { s with
      total_minted := s.total_minted - x,
      sol_collected :=
        s.sol_collected - x / 10 ^ s.token_decimals * s.current_price * 90 / 100 } with
  | error e =>
      rw [hup] at h
      exact Except.noConfusion h
  | ok s2 =>
      rw [hup] at h
      obtain ⟨hm0, hlt, hs2⟩ := update_price_ok hup
      simp only [Except.map, Except.ok.injEq, Prod.mk.injEq] at h
      obtain ⟨ha, hb, hc, hdq⟩ := h
      refine ⟨h1, h4, h5, h7, h8, ?_, ?_, ?_, hb.symm, hc.symm, hdq.symm⟩
      · simpa using hlt
      · simpa using hm0
      · rw [← ha, hs2]

/-- A successful `withdraw_sol` implies the requester is the authority and the
vault covers the amount; the `LauncherState` record is returned untouched. -/
theorem withdraw_sol_ok {s : LauncherState} {k ks v x : Nat}
    {s' : LauncherState} {ks' v' : Nat}
    (h : withdraw_sol s k ks v x = .ok (s', ks', v')) :
    k = s.authority ∧ x ≤ v ∧ s' = s ∧ ks' = ks + x ∧ v' = v - x := by
  unfold withdraw_sol at h
  split_ifs at h with h1 h2 h3
  simp only [Except.ok.injEq, Prod.mk.injEq] at h
  exact ⟨h1, h2, h.1.symm, h.2.1.symm, h.2.2.symm⟩

/-- Inductive invariant of reachable states: the circulating supply never
exceeds the cap, and `total_minted * 100` (the numerator of the bonding-curve
percentage) stays in the `u64` domain — any state update that would break the
latter makes `update_price` abort, so it is never committed. -/
theorem reachable_inv {s : LauncherState} {v : Nat} (hr : Reachable s v) :
    s.total_minted ≤ s.max_supply ∧ s.total_minted * 100 < U64MOD := by
  induction hr with
  | init a m tn ts d p mx v0 hd hp hm =>
      refine ⟨Nat.zero_le _, ?_⟩
      simp [init_token_launcher, U64MOD_pos]
  | buy bs bt x hr hx hok ih =>
      obtain ⟨_, _, _, hmax, _, _, hlt, _, hs', _, _, _⟩ := buy_tokens_ok hok
      subst hs'
      exact ⟨hmax, hlt⟩
  | sell ss st x hr hx hok ih =>
      obtain ⟨_, _, _, _, _, hlt, _, hs', _, _, _⟩ := sell_tokens_ok hok
      subst hs'
      exact ⟨Nat.le_trans (Nat.sub_le _ _) ih.1, hlt⟩
  | withdraw k ks x hr hx hok ih =>
      obtain ⟨_, _, hs', _, _⟩ := withdraw_sol_ok hok
      subst hs'
      exact ih

/-! ### Concrete states used by witnesses and counterexamples -/

/-- Fresh record: 0 decimals, initial price 1_000_000, cap 100. -/
def sA : LauncherState := init_token_launcher 1 2 "A" "A" 0 1000000 100

/-- `sA` after buying 1_000_000 lamports (one token). -/
def sA1 : LauncherState :=
  { sA with total_minted := 1, sol_collected := 1000000, current_price := 1010000 }

/-- Fresh record: 0 decimals, initial price 1_000_000, cap 200. -/
def sB : LauncherState := init_token_launcher 1 2 "B" "B" 0 1000000 200

/-- `sB` after a first buyer spends 100_000_000 lamports (100 tokens). -/
def sB1 : LauncherState :=
  { sB with total_minted := 100, sol_collected := 100000000, current_price := 1500000 }

/-- `sB1` after a second buyer spends 150_000_000 lamports (100 tokens). -/
def sB2 : LauncherState :=
  { sB with total_minted := 200, sol_collected := 250000000, current_price := 2000000 }

/-- `sB2` after the second buyer sells their 100 tokens back. -/
def sB3 : LauncherState :=
  { sB with total_minted := 100, sol_collected := 70000000, current_price := 1500000 }

/-- Fresh record with `max_supply = 0` — the code accepts it. -/
def sC : LauncherState := init_token_launcher 1 2 "C" "C" 9 1000000 0

/-- Fresh record: 0 decimals, initial price 1, cap `u64::MAX`. -/
def sD : LauncherState := init_token_launcher 1 2 "D" "D" 0 1 18446744073709551615

/-- Fresh record: 6 decimals, initial price 1, cap `u64::MAX`. -/
def sE : LauncherState := init_token_launcher 1 2 "E" "E" 6 1 18446744073709551615

/-- `sE` after buying 150_000_000_000 lamports at price 1. -/
def sE1 : LauncherState :=
  { sE with
    total_minted := 150000000000000000
    sol_collected := 150000000000
    current_price := 1000000 }

/-- Fresh record: 0 decimals, initial price 2_000_000, cap 1_000_000. -/
def sF : LauncherState := init_token_launcher 1 2 "F" "F" 0 2000000 1000000

/-- `sF` after buying 4_000_000 lamports (2 tokens); the bonding curve
REDUCES the price to 1_000_000. -/
def sF1 : LauncherState :=
  { sF with total_minted := 2, sol_collected := 4000000, current_price := 1000000 }

/-- `sF1` after selling the 2 tokens back. -/
def sF2 : LauncherState :=
  { sF with total_minted := 0, sol_collected := 2200000, current_price := 1000000 }

/-- Fresh record: 9 decimals, initial price 1_000_000, cap 10^12. -/
def sW : LauncherState := init_token_launcher 1 2 "W" "W" 9 1000000 1000000000000

/-- `sW` after buying 1_000_000 lamports (one whole token = 10^9 base units). -/
def sW1 : LauncherState :=
  { sW with total_minted := 1000000000, sol_collected := 1000000 }

/-- `sW1` after selling the whole token back for 900_000 lamports. -/
def sW2 : LauncherState := { sW with sol_collected := 100000 }

/-! ### The claims -/

/-- C1: after any successful `buy_tokens` or `sell_tokens` from a reachable
state — i.e. in every state reachable from initialization with at least one
buy/sell performed — `0 ≤ total_minted ≤ max_supply` (the lower bound is
inherent to `Nat`) and
`current_price = 1000000 * (100 + total_minted * 100 / max_supply) / 100`,
the bonding-curve function of §4.2 with integer (floor) division. -/
theorem C1_price_invariant {s : LauncherState} {v : Nat} {s' : LauncherState}
    {r2 r3 r4 : Nat} (hr : Reachable s v)
    (hstep : (∃ bs bt x, buy_tokens s bs bt v x = .ok (s', r2, r3, r4)) ∨
             (∃ ss st x, sell_tokens s ss st v x = .ok (s', r2, r3, r4))) :
    s'.total_minted ≤ s'.max_supply ∧
    s'.current_price = 1000000 * (100 + s'.total_minted * 100 / s'.max_supply) / 100 := by
  rcases hstep with ⟨bs, bt, x, hok⟩ | ⟨ss, st, x, hok⟩
  · obtain ⟨_, _, _, hmax, _, _, _, _, hs', _, _, _⟩ := buy_tokens_ok hok
    subst hs'
    exact ⟨hmax, rfl⟩
  · obtain ⟨_, _, _, _, _, _, _, hs', _, _, _⟩ := sell_tokens_ok hok
    subst hs'
    exact ⟨Nat.le_trans (Nat.sub_le _ _) (reachable_inv hr).1, rfl⟩

/-- C1 witness: a concrete one-buy trace from `sA`. -/
theorem C1_witness :
    Reachable sA 0 ∧
    buy_tokens sA 2000000 0 0 1000000 = .ok (sA1, 1000000, 1, 1000000) ∧
    (sA1.total_minted ≤ sA1.max_supply ∧
     sA1.current_price = 1000000 * (100 + sA1.total_minted * 100 / sA1.max_supply) / 100) :=
  have hr : Reachable sA 0 :=
    Reachable.init 1 2 "A" "A" 0 1000000 100 0 (by decide) (by decide) (by decide)
  have hok : buy_tokens sA 2000000 0 0 1000000 = .ok (sA1, 1000000, 1, 1000000) := by decide
  ⟨hr, hok, C1_price_invariant hr (Or.inl ⟨2000000, 0, 1000000, hok⟩)⟩

/-- C2 (amended): buying `x > 0` lamports and immediately selling the entire
received token quantity returns strictly less than `x`, PROVIDED
`90 * (post-buy price) < 100 * (pre-buy price)` — in particular whenever the
buy leaves the price unchanged.  The unamended claim is refuted by
`C2_counterexample`: when the buy raises the price enough (or the initial
price sits below the curve), the round trip is strictly profitable. -/
theorem C2_roundtrip_friction {s s1 s2 : LauncherState}
    {bs bt v x bs1 bt1 v1 bs2 bt2 v2 : Nat}
    (hbuy : buy_tokens s bs bt v x = .ok (s1, bs1, bt1, v1))
    (hx : 0 < x)
    (hp : 90 * s1.current_price < 100 * s.current_price)
    (hsell : sell_tokens s1 bs1 bt1 v1 (bt1 - bt) = .ok (s2, bs2, bt2, v2)) :
    bs2 - bs1 < x := by
  obtain ⟨hp0, hdle, hmul, hmax, hbs, hsc, hlt, hm0, hs1, hbs1, hbt1, hv1⟩ :=
    buy_tokens_ok hbuy
  obtain ⟨_, _, _, _, _, _, _, _, hss2, _, _⟩ := sell_tokens_ok hsell
  have hdec : s1.token_decimals = s.token_decimals := by rw [hs1]
  have hqt : (bt1 - bt) / 10 ^ s1.token_decimals = x / s.current_price := by
    rw [hbt1, hdec, Nat.add_sub_cancel_left,
        Nat.mul_div_cancel _ (by positivity : (0:Nat) < 10 ^ s.token_decimals)]
  rw [hss2, hqt, Nat.add_sub_cancel_left]
  rcases Nat.eq_zero_or_pos (x / s.current_price) with hq0 | hqpos
  · rw [hq0]
    simpa using hx
  · have h1 : x / s.current_price * s1.current_price * 90 <
        100 * (x / s.current_price * s.current_price) := by
      calc x / s.current_price * s1.current_price * 90
          = x / s.current_price * (90 * s1.current_price) := by ring
        _ < x / s.current_price * (100 * s.current_price) :=
            mul_lt_mul_of_pos_left hp hqpos
        _ = 100 * (x / s.current_price * s.current_price) := by ring
    exact lt_of_lt_of_le (Nat.div_lt_of_lt_mul h1) (Nat.div_mul_le_self x s.current_price)

/-- C2 counterexample: from the reachable state `sB1` (two-buyer scenario), a
buy of 150_000_000 lamports (100 tokens, price rises from 1.5 to 2 SOL/token)
followed immediately by selling those 100 tokens pays out 180_000_000
lamports — strictly MORE than was spent, refuting the claim as stated. -/
theorem C2_counterexample :
    Reachable sB1 100000000 ∧
    buy_tokens sB1 150000000 0 100000000 150000000 = .ok (sB2, 0, 100, 250000000) ∧
    sell_tokens sB2 0 100 250000000 (100 - 0) = .ok (sB3, 180000000, 0, 70000000) ∧
    ¬ (180000000 - 0 < 150000000) :=
  have hok1 : buy_tokens sB 100000000 0 0 100000000 = .ok (sB1, 0, 100, 100000000) := by
    decide
  have hr : Reachable sB1 100000000 :=
    Reachable.buy 100000000 0 100000000
      (Reachable.init 1 2 "B" "B" 0 1000000 200 0 (by decide) (by decide) (by decide))
      (by decide) hok1
  ⟨hr, by decide, by decide, by decide⟩

/-- C2 witness: a concrete round trip from `sF` in which the price does not
rise above the slippage cushion; it loses money as amended. -/
theorem C2_witness :
    buy_tokens sF 4000000 0 0 4000000 = .ok (sF1, 0, 2, 4000000) ∧
    (0 : Nat) < 4000000 ∧
    90 * sF1.current_price < 100 * sF.current_price ∧
    sell_tokens sF1 0 2 4000000 (2 - 0) = .ok (sF2, 1800000, 0, 2200000) ∧
    1800000 - 0 < 4000000 :=
  have h1 : buy_tokens sF 4000000 0 0 4000000 = .ok (sF1, 0, 2, 4000000) := by decide
  have h4 : sell_tokens sF1 0 2 4000000 (2 - 0) = .ok (sF2, 1800000, 0, 2200000) := by
    decide
  ⟨h1, by decide, by decide, h4,
   C2_roundtrip_friction h1 (by decide) (by decide) h4⟩

/-- C3 (amended): `initialize_token_launcher` performs NO validation of
`max_supply`: it creates a record for `max_supply = 0` as well
(`C3_counterexample`).  On such a record the division by `max_supply` inside
`update_price` is a division by zero, which aborts the transaction, so no
`buy_tokens` or `sell_tokens` ever succeeds on it — hence no SUCCESSFUL
operation ever divides by zero, but this is enforced by the runtime abort,
not by any initialization-time check. -/
theorem C3_no_validation {s : LauncherState} (hm : s.max_supply = 0) :
    (∀ bs bt v x r, buy_tokens s bs bt v x ≠ .ok r) ∧
    (∀ ss st v x r, sell_tokens s ss st v x ≠ .ok r) := by
  constructor
  · rintro bs bt v x ⟨s', a, b, c⟩ hok
    exact (buy_tokens_ok hok).2.2.2.2.2.2.2.1 hm
  · rintro ss st v x ⟨s', a, b, c⟩ hok
    exact (sell_tokens_ok hok).2.2.2.2.2.2.1 hm

/-- C3 counterexample: initialization accepts `max_supply = 0` (the record
`sC` exists), and a subsequent buy aborts with a division-by-zero panic
rather than any typed error — the claimed initialization-time failure does
not exist in the code. -/
theorem C3_counterexample :
    sC.max_supply = 0 ∧ buy_tokens sC 10 0 0 5 = .error .abort :=
  ⟨by decide, by decide⟩

/-- C3 witness: the amended theorem applied at the concrete record `sC`. -/
theorem C3_witness :
    sC.max_supply = 0 ∧ buy_tokens sC 10 0 0 5 ≠ .ok (sC, 5, 0, 5) :=
  ⟨by decide, (C3_no_validation (by decide)).1 10 0 0 5 (sC, 5, 0, 5)⟩

/-- C4: the claim that every arithmetic step is overflow-checked and that an
out-of-domain step fails with the typed `MathOverflow` is violated by the
code: `update_price` multiplies `total_minted * 100` with an UNCHECKED `u64`
`*` (and `sell_tokens`/`withdraw_sol` move lamports with unchecked `+=`/`-=`).
At the reachable state `sD` (fresh record, price 1, cap `u64::MAX`), buying
`2^62` lamports passes every `checked_*` step, then `2^62 * 100` overflows
inside `update_price` and the operation aborts with a panic instead of
returning `MathOverflow`. -/
theorem C4_unchecked_overflow :
    Reachable sD 0 ∧
    buy_tokens sD 4611686018427387904 0 0 4611686018427387904 = .error .abort ∧
    buy_tokens sD 4611686018427387904 0 0 4611686018427387904 ≠
      .error (.program .MathOverflow) :=
  ⟨Reachable.init 1 2 "D" "D" 0 1 18446744073709551615 0
     (by decide) (by decide) (by decide),
   by decide, by decide⟩

/-- C5 counterexample: at the reachable freshly-initialized state `sA`
(price 1_000_000), the division `5 / current_price` yields zero, yet
`buy_tokens` SUCCEEDS: it transfers the 5 lamports to the vault, adds them to
`sol_collected` and mints nothing — it does not fail with any typed error
(there is no `ZeroQuantity` in the program's `ErrorCode` at all). -/
theorem C5_counterexample :
    Reachable sA 0 ∧ (5 : Nat) / sA.current_price = 0 ∧
    buy_tokens sA 10 0 0 5 = .ok ({ sA with sol_collected := 5 }, 5, 0, 5) :=
  ⟨Reachable.init 1 2 "A" "A" 0 1000000 100 0 (by decide) (by decide) (by decide),
   by decide, by decide⟩

/-- C5 (amended): when `0 < current_price` and `sol_amount < current_price`
(so the division yields zero tokens), `buy_tokens` from a reachable state
does NOT fail: provided the external steps can proceed (buyer funded, no
`u64` saturation of the vault, buyer token account or `sol_collected`) and
`max_supply > 0` with `10 ^ decimals` representable, it SUCCEEDS — it
transfers `sol_amount` to the vault, adds it to `sol_collected`, and mints
zero tokens (buyer token balance unchanged).  The division fails with the
typed `MathOverflow` only when `current_price = 0`. -/
theorem C5_zero_token_buy {s : LauncherState} {v bs bt x : Nat}
    (hr : Reachable s v)
    (hp : 0 < s.current_price) (hx : x < s.current_price)
    (hm : 0 < s.max_supply) (hd : 10 ^ s.token_decimals < U64MOD)
    (hbs : x ≤ bs) (hv : v + x < U64MOD) (hbt : bt < U64MOD)
    (hsc : s.sol_collected + x < U64MOD) :
    buy_tokens s bs bt v x =
      .ok ({ s with
              sol_collected := s.sol_collected + x,
              current_price :=
                1000000 * (100 + s.total_minted * 100 / s.max_supply) / 100 },
           bs - x, bt, v + x) := by
  obtain ⟨hinv1, hinv2⟩ := reachable_inv hr
  have hp0 : ¬ s.current_price = 0 := Nat.pos_iff_ne_zero.mp hp
  have hq : x / s.current_price = 0 := Nat.div_eq_of_lt hx
  have htm : s.total_minted < U64MOD :=
    lt_of_le_of_lt (Nat.le_mul_of_pos_right _ (by norm_num)) hinv2
  have hrun := update_price_run (s := { s with sol_collected := s.sol_collected + x })
    (by simpa using hinv2) (by simpa using Nat.pos_iff_ne_zero.mp hm) (by simpa using hinv1)
  have hrec : ({ s with
      total_minted := s.total_minted
      sol_collected := s.sol_collected + x } : LauncherState) =
      { s with sol_collected := s.sol_collected + x } := rfl
  simp only [buy_tokens, hq, Nat.zero_mul, Nat.add_zero]
  rw [if_neg hp0, if_pos hd, if_pos U64MOD_pos, if_pos htm, if_pos hinv1, if_pos hbs,
      if_pos hv, if_pos hbt, if_pos hsc, hrec, hrun]
  rfl

/-- C5 witness: the amended theorem at the concrete state `sA` with a
5-lamport buy. -/
theorem C5_witness :
    Reachable sA 0 ∧ 0 < sA.current_price ∧ (5 : Nat) < sA.current_price ∧
    buy_tokens sA 10 0 0 5 =
      .ok ({ sA with
              sol_collected := sA.sol_collected + 5,
              current_price :=
                1000000 * (100 + sA.total_minted * 100 / sA.max_supply) / 100 },
           10 - 5, 0, 0 + 5) :=
  have hr : Reachable sA 0 :=
    Reachable.init 1 2 "A" "A" 0 1000000 100 0 (by decide) (by decide) (by decide)
  ⟨hr, by decide, by decide,
   C5_zero_token_buy hr (by decide) (by decide) (by decide) (by decide) (by decide)
     (by decide) (by decide) (by decide)⟩

/-- C6 (amended): `withdraw_sol` fails with the typed `Unauthorized` whenever
the requester differs from the recorded authority; but when the (authorized)
requester's `amount` exceeds the vault balance, the UNCHECKED lamport
subtraction aborts at runtime — there is no typed insufficient-reserve error
on this path.  In either failure nothing is returned, so no lamports move and
no state changes (Solana aborts the whole transaction). -/
theorem C6_withdraw_behavior {s : LauncherState} {k ks v x : Nat} :
    (k ≠ s.authority → withdraw_sol s k ks v x = .error (.program .Unauthorized)) ∧
    (k = s.authority → v < x → withdraw_sol s k ks v x = .error .abort) := by
  constructor
  · intro hk
    unfold withdraw_sol
    rw [if_neg hk]
  · intro hk hv
    unfold withdraw_sol
    rw [if_pos hk, if_neg (by omega)]

/-- C6 counterexample: the authority over-withdraws (amount 100 from a vault
holding 10); the operation aborts via unchecked `u64` underflow — it is NOT
the typed `InsufficientSolBalance` (or any program error). -/
theorem C6_counterexample :
    withdraw_sol sA 1 0 10 100 = .error .abort ∧
    withdraw_sol sA 1 0 10 100 ≠ .error (.program .InsufficientSolBalance) :=
  ⟨by decide, by decide⟩

/-- C6 witness: both branches of the amended theorem at concrete inputs. -/
theorem C6_witness :
    ((2 : Nat) ≠ sA.authority ∧
     withdraw_sol sA 2 0 10 5 = .error (.program .Unauthorized)) ∧
    ((1 : Nat) = sA.authority ∧ (10 : Nat) < 100 ∧
     withdraw_sol sA 1 0 10 100 = .error .abort) :=
  ⟨⟨by decide, (@C6_withdraw_behavior sA 2 0 10 5).1 (by decide)⟩,
   ⟨by decide, by decide, (@C6_withdraw_behavior sA 1 0 10 100).2 (by decide) (by decide)⟩⟩

/-- C7 (amended): a buy whose computed token quantity would push
`total_minted` past `max_supply` fails with `MaxSupplyExceeded` — but only
when the sum `total_minted + token_amount` still fits in `u64`.  When that
sum overflows `u64` (and therefore also exceeds any possible `max_supply`),
the `checked_add` inside the `require!` fails first and the error is
`MathOverflow` instead (`C7_counterexample` exhibits this at a reachable
state).  In both cases the failure happens before the transfer, the mint and
every state write, so the state and external balances are unchanged. -/
theorem C7_supply_cap {s : LauncherState} {bs bt v x : Nat}
    (hp : s.current_price ≠ 0)
    (hd : 10 ^ s.token_decimals < U64MOD)
    (ht : x / s.current_price * 10 ^ s.token_decimals < U64MOD) :
    (s.total_minted + x / s.current_price * 10 ^ s.token_decimals < U64MOD →
     s.max_supply < s.total_minted + x / s.current_price * 10 ^ s.token_decimals →
     buy_tokens s bs bt v x = .error (.program .MaxSupplyExceeded)) ∧
    (U64MOD ≤ s.total_minted + x / s.current_price * 10 ^ s.token_decimals →
     buy_tokens s bs bt v x = .error (.program .MathOverflow)) := by
  constructor
  · intro h1 h2
    unfold buy_tokens
    rw [if_neg hp, if_pos hd, if_pos ht, if_pos h1, if_neg (by omega)]
  · intro h1
    unfold buy_tokens
    rw [if_neg hp, if_pos hd, if_pos ht, if_neg (by omega)]

/-- C7 counterexample: at the reachable state `sE1` (6 decimals, price
1_000_000, `total_minted = 1.5 * 10^17`, cap `u64::MAX`), a buy of
`1.83 * 10^19` lamports computes `1.83 * 10^19` token base-units;
`total_minted + token_amount` exceeds `max_supply`, yet the buy fails with
`MathOverflow` (the `checked_add` overflows `u64`), NOT `MaxSupplyExceeded`
as the claim states. -/
theorem C7_counterexample :
    Reachable sE1 150000000000 ∧
    sE1.max_supply <
      sE1.total_minted + 18300000000000000000 / sE1.current_price * 10 ^ sE1.token_decimals ∧
    buy_tokens sE1 18300000000000000000 0 150000000000 18300000000000000000 =
      .error (.program .MathOverflow) ∧
    buy_tokens sE1 18300000000000000000 0 150000000000 18300000000000000000 ≠
      .error (.program .MaxSupplyExceeded) :=
  have hok1 : buy_tokens sE 150000000000 0 0 150000000000 =
      .ok (sE1, 0, 150000000000000000, 150000000000) := by decide
  have hr : Reachable sE1 150000000000 :=
    Reachable.buy 150000000000 0 150000000000
      (Reachable.init 1 2 "E" "E" 6 1 18446744073709551615 0
        (by decide) (by decide) (by decide))
      (by decide) hok1
  ⟨hr, by decide, by decide, by decide⟩

/-- C7 witness: both branches of the amended theorem — an in-`u64` cap
violation yields `MaxSupplyExceeded`, an overflowing one yields
`MathOverflow`. -/
theorem C7_witness :
    (sA.total_minted + 200000000 / sA.current_price * 10 ^ sA.token_decimals < U64MOD ∧
     sA.max_supply < sA.total_minted + 200000000 / sA.current_price * 10 ^ sA.token_decimals ∧
     buy_tokens sA 0 0 0 200000000 = .error (.program .MaxSupplyExceeded)) ∧
    (U64MOD ≤ sE1.total_minted +
        18300000000000000000 / sE1.current_price * 10 ^ sE1.token_decimals ∧
     buy_tokens sE1 0 0 0 18300000000000000000 = .error (.program .MathOverflow)) :=
  ⟨⟨by decide, by decide,
    (@C7_supply_cap sA 0 0 0 200000000 (by decide) (by decide) (by decide)).1
      (by decide) (by decide)⟩,
   ⟨by decide,
    (@C7_supply_cap sE1 0 0 0 18300000000000000000 (by decide) (by decide) (by decide)).2
      (by decide)⟩⟩

/-- C8: whenever `sell_tokens` succeeds, the lamports paid to the seller (and
debited from the vault) equal
`token_amount / 10 ^ decimals * current_price * 90 / 100`, computed with the
PRE-operation price and integer (floor) division at each step.  The spec's
example — selling `10 ^ decimals` base-units at price 1_000_000 pays exactly
900_000 — is instantiated in `C8_witness`. -/
theorem C8_sell_payout {s : LauncherState} {ss st v x : Nat}
    {s' : LauncherState} {ss' st' v' : Nat}
    (h : sell_tokens s ss st v x = .ok (s', ss', st', v')) :
    ss' = ss + x / 10 ^ s.token_decimals * s.current_price * 90 / 100 ∧
    v' = v - x / 10 ^ s.token_decimals * s.current_price * 90 / 100 := by
  obtain ⟨_, _, _, _, _, _, _, _, hss, _, hv⟩ := sell_tokens_ok h
  exact ⟨hss, hv⟩

/-- C8 witness: selling one whole token (`10^9` base-units at 9 decimals) at
price 1_000_000 pays exactly 900_000 lamports. -/
theorem C8_witness :
    sell_tokens sW1 0 1000000000 1000000 1000000000 = .ok (sW2, 900000, 0, 100000) ∧
    (900000 : Nat) = 0 + 1000000000 / 10 ^ sW1.token_decimals * sW1.current_price * 90 / 100 ∧
    (100000 : Nat) = 1000000 - 1000000000 / 10 ^ sW1.token_decimals * sW1.current_price * 90 / 100 :=
  have h : sell_tokens sW1 0 1000000000 1000000 1000000000 = .ok (sW2, 900000, 0, 100000) := by
    decide
  ⟨h, (C8_sell_payout h).1, (C8_sell_payout h).2⟩

/-- C9: `withdraw_sol` never touches the bookkeeping: the returned record is
the input record, so `total_minted`, `current_price` and `sol_collected` are
unchanged on success; on failure the transaction aborts with no effect at
all.  Only the vault and requester lamport balances change. -/
theorem C9_withdraw_frame {s : LauncherState} {k ks v x : Nat}
    {s' : LauncherState} {ks' v' : Nat}
    (h : withdraw_sol s k ks v x = .ok (s', ks', v')) :
    s'.total_minted = s.total_minted ∧ s'.current_price = s.current_price ∧
    s'.sol_collected = s.sol_collected := by
  obtain ⟨_, _, hs, _, _⟩ := withdraw_sol_ok h
  subst hs
  exact ⟨rfl, rfl, rfl⟩

/-- C9 witness: a concrete successful withdrawal of 5 of the vault's 10
lamports by the authority leaves the record untouched. -/
theorem C9_witness :
    withdraw_sol sA 1 0 10 5 = .ok (sA, 5, 5) ∧
    sA.total_minted = sA.total_minted ∧ sA.current_price = sA.current_price ∧
    sA.sol_collected = sA.sol_collected :=
  have h : withdraw_sol sA 1 0 10 5 = .ok (sA, 5, 5) := by decide
  ⟨h, (C9_withdraw_frame h).1, (C9_withdraw_frame h).2.1, (C9_withdraw_frame h).2.2⟩

/-- C10: selling a sub-whole-unit amount `0 < x < 10 ^ decimals` from a
reachable state SUCCEEDS (provided the seller holds the tokens, the
`total_minted` update does not underflow — `x ≤ total_minted` — and the
seller's lamport balance is a valid `u64`): it burns the `x` tokens from the
seller, pays the seller exactly 0 lamports, leaves `sol_collected` and the
vault unchanged, and decreases `total_minted` by `x` — sub-whole-unit sellers
forfeit their tokens for nothing. -/
theorem C10_dust_sell {s : LauncherState} {v ss st x : Nat}
    (hr : Reachable s v)
    (hx : 0 < x) (hxd : x < 10 ^ s.token_decimals)
    (hxt : x ≤ s.total_minted) (hst : x ≤ st)
    (hss : ss < U64MOD) (hd : 10 ^ s.token_decimals < U64MOD) :
    sell_tokens s ss st v x =
      .ok ({ s with
              total_minted := s.total_minted - x,
              current_price :=
                1000000 * (100 + (s.total_minted - x) * 100 / s.max_supply) / 100 },
           ss, st - x, v) := by
  obtain ⟨hinv1, hinv2⟩ := reachable_inv hr
  have hq : x / 10 ^ s.token_decimals = 0 := Nat.div_eq_of_lt hxd
  have hm0 : s.max_supply ≠ 0 := by omega
  have hlt : (s.total_minted - x) * 100 < U64MOD :=
    lt_of_le_of_lt (Nat.mul_le_mul_right _ (Nat.sub_le _ _)) hinv2
  have hle : s.total_minted - x ≤ s.max_supply := le_trans (Nat.sub_le _ _) hinv1
  have hrun := update_price_run
    (s := { s with total_minted := s.total_minted - x, sol_collected := s.sol_collected })
    (by simpa using hlt) (by simpa using hm0) (by simpa using hle)
  simp only [sell_tokens, hq, Nat.zero_mul, Nat.zero_div, Nat.sub_zero, Nat.add_zero]
  rw [if_pos hd, if_pos U64MOD_pos, if_pos U64MOD_pos, if_pos (Nat.zero_le _), if_pos hst,
      if_pos hss, if_pos hxt, if_pos (Nat.zero_le _), hrun]
  rfl

/-- C10 witness: from the reachable state `sW1` (9 decimals), selling 5
base-units (less than one whole token) succeeds, burns the 5 units, pays 0
lamports, and reduces `total_minted` by 5. -/
theorem C10_witness :
    Reachable sW1 1000000 ∧
    sell_tokens sW1 0 1000000000 1000000 5 =
      .ok ({ sW1 with
              total_minted := sW1.total_minted - 5,
              current_price :=
                1000000 * (100 + (sW1.total_minted - 5) * 100 / sW1.max_supply) / 100 },
           0, 1000000000 - 5, 1000000) :=
  have hok1 : buy_tokens sW 1000000 0 0 1000000 = .ok (sW1, 0, 1000000000, 1000000) := by
    decide
  have hr : Reachable sW1 1000000 :=
    Reachable.buy 1000000 0 1000000
      (Reachable.init 1 2 "W" "W" 9 1000000 1000000000000 0
        (by decide) (by decide) (by decide))
      (by decide) hok1
  ⟨hr, C10_dust_sell hr (by decide) (by decide) (by decide) (by decide) (by decide) (by decide)⟩

end TokenLauncher
